import Mathlib

/-
Verification of the MachTaskSelfWrapper component
(src/Sources/MachTaskSelfWrapper/MachTaskSelf.c and its header
src/Sources/MachTaskSelfWrapper/include/MachTaskSelf.h).

The C source consists of a single function

    mach_port_t get_current_task_port(void) {
        return mach_task_self_;
    }

together with its declaration in the header.  We embed the body of this
function as a term of a small statement language equipped with an
effect-tracking evaluator, so that properties such as "performs exactly one
read", "mutates no state", "performs no allocation" and "has no failure
path" are stated about the actual body rather than about a hand-simplified
summary.  Values of the C type `mach_port_t` (a 32-bit unsigned integer on
Mach-derived systems) are modelled as natural numbers.
-/

/-- The global variables visible to the component.  `mach_task_self_` is the
operating-system-maintained ambient task handle read by the C source; the
`other` constructors stand for any unrelated process-wide state, so that
non-interference statements are not vacuous. -/
inductive GlobalVar
  | mach_task_self_ : GlobalVar
  | other : Nat → GlobalVar
deriving DecidableEq

/-- The ambient process state: the value of every global, together with a
count of heap allocations performed so far (so that "performs no
allocation" is expressible). -/
structure ProcState where
  globals : GlobalVar → Nat
  allocCount : Nat

/-- Expressions of the embedded C fragment: integer literals and reads of a
global variable. -/
inductive CExpr
  | lit : Nat → CExpr
  | globalRead : GlobalVar → CExpr

/-- Evaluate an expression, returning its value and the list of global
reads it performed, in order. -/
def evalExpr : CExpr → ProcState → Nat × List GlobalVar
  | CExpr.lit n, _ => (n, [])
  | CExpr.globalRead g, s => (s.globals g, [g])

/-- Statements of the embedded C fragment.  Besides `ret` (the only form
the source uses) the language has global writes, allocation and a trapping
statement, so that the absence of those effects in the source is a theorem
rather than a tautology of the modelling language. -/
inductive CStmt
  | ret : CExpr → CStmt
  | globalWrite : GlobalVar → CExpr → CStmt
  | allocate : CStmt
  | trap : CStmt
  | seq : CStmt → CStmt → CStmt

/-- The observable outcome of running a statement: the returned value (if
the statement executed a `return`), the post-state, and the traces of
global reads and writes and the number of allocations it performed. -/
structure Outcome where
  ret : Option Nat
  state : ProcState
  reads : List GlobalVar
  writes : List GlobalVar
  allocs : Nat

/-- Run a statement in a process state.  `none` models a runtime failure
(a trap); otherwise the outcome records the returned value, the final
state and the effect traces.  A `ret` stops execution of a sequence. -/
def evalStmt : CStmt → ProcState → Option Outcome
  | CStmt.ret e, s =>
      let r := evalExpr e s
      some ⟨some r.1, s, r.2, [], 0⟩
  | CStmt.globalWrite g e, s =>
      let r := evalExpr e s
      some ⟨none,
        { s with globals := fun g2 => if g2 = g then r.1 else s.globals g2 },
        r.2, [g], 0⟩
  | CStmt.allocate, s =>
      some ⟨none, { s with allocCount := s.allocCount + 1 }, [], [], 1⟩
  | CStmt.trap, _ => none
  | CStmt.seq a b, s =>
      match evalStmt a s with
      | none => none
      | some o1 =>
        match o1.ret with
        | some v => some ⟨some v, o1.state, o1.reads, o1.writes, o1.allocs⟩
        | none =>
          match evalStmt b o1.state with
          | none => none
          | some o2 =>
              some ⟨o2.ret, o2.state, o1.reads ++ o2.reads,
                o1.writes ++ o2.writes, o1.allocs + o2.allocs⟩

/-- The body of `get_current_task_port`, transcribed from
src/Sources/MachTaskSelfWrapper/MachTaskSelf.c lines 5-7:
`return mach_task_self_;`. -/
def get_current_task_port_body : CStmt :=
  CStmt.ret (CExpr.globalRead GlobalVar.mach_task_self_)

/-- The wrapper function: run its body in the current process state. -/
def get_current_task_port (s : ProcState) : Option Outcome :=
  evalStmt get_current_task_port_body s

/-- Evaluation of the wrapper is fully determined: it succeeds, returns
the ambient `mach_task_self_` value, leaves the state unchanged, performs
exactly the one read, no write and no allocation. -/
theorem get_current_task_port_eval (s : ProcState) :
    get_current_task_port s =
      some ⟨some (s.globals GlobalVar.mach_task_self_), s,
        [GlobalVar.mach_task_self_], [], 0⟩ := rfl

/-- A sample process state whose ambient task handle is `v`; used to
instantiate theorems at concrete inputs. -/
def mkState (v : Nat) : ProcState where
  globals := fun g =>
    match g with
    | GlobalVar.mach_task_self_ => v
    | GlobalVar.other i => i + 7
  allocCount := 0

/-- One call of the wrapper viewed as a state transformer: the returned
value together with the state in which the rest of the process continues. -/
def callOnce (s : ProcState) : Option Nat × ProcState :=
  match get_current_task_port s with
  | none => (none, s)
  | some o => (o.ret, o.state)

/-- The results of `n` successive calls of the wrapper within one process,
each call running in the state left behind by the previous one. -/
def callResults : Nat → ProcState → List (Option Nat)
  | 0, _ => []
  | n + 1, s => (callOnce s).1 :: callResults n (callOnce s).2

theorem callResults_eq (n : Nat) (s : ProcState) :
    callResults n s =
      List.replicate n (some (s.globals GlobalVar.mach_task_self_)) := by
  induction n with
  | zero => rfl
  | succ n ih =>
      simp [callResults, callOnce, get_current_task_port_eval, ih,
        List.replicate]

/-- The C identifiers relevant to the public surface: the name the header
actually declares, and the name the specification uses for the operation. -/
inductive CName
  | get_current_task_port
  | get_current_task_handle
deriving DecidableEq

/-- A C function declaration of the public surface: its name, its number of
parameters, and the bit width of its return type. -/
structure FuncDecl where
  name : CName
  params : Nat
  retWidth : Nat
deriving DecidableEq

/-- The width, in bits, of `mach_port_t` (`__darwin_natural_t`, an unsigned
int) — the platform's native task-handle width on Mach-derived systems. -/
def machPortWidth : Nat := 32

/-- The public function surface declared by
src/Sources/MachTaskSelfWrapper/include/MachTaskSelf.h line 8:
`mach_port_t get_current_task_port(void);` — one function, zero
parameters, returning a `mach_port_t`. -/
def declaredFunctions : List FuncDecl :=
  [{ name := CName.get_current_task_port, params := 0,
     retWidth := machPortWidth }]

/-- The reserved port name `MACH_PORT_NULL`: the value 0. -/
def MACH_PORT_NULL : Nat := 0

/-- The reserved port name `MACH_PORT_DEAD`: all ones in the 32-bit port
name space. -/
def MACH_PORT_DEAD : Nat := 2 ^ 32 - 1

/-- Modelled from the spec: "the returned value is non-zero / well-formed
according to the host operating system's definition of a valid task
handle".  The operating system's definition of task-handle validity is not
part of this repository; a valid handle is a 32-bit port name that is
neither `MACH_PORT_NULL` nor `MACH_PORT_DEAD`. -/
def OSValidTaskHandle (v : Nat) : Prop :=
  v ≠ MACH_PORT_NULL ∧ v ≠ MACH_PORT_DEAD ∧ v < 2 ^ 32

instance (v : Nat) : Decidable (OSValidTaskHandle v) := by
  unfold OSValidTaskHandle
  infer_instance

/-- Modelled from the spec: the value "obtained directly from the
compiler-level construct", i.e. reading the `mach_task_self_` macro/global
itself, with no wrapper in between. -/
def direct_mach_task_self_read (s : ProcState) : Nat :=
  s.globals GlobalVar.mach_task_self_

/-- An atomic shared-memory action a thread can take: read a global, or
write a value to a global. -/
inductive ThreadAct
  | readAct : GlobalVar → ThreadAct
  | writeAct : GlobalVar → Nat → ThreadAct

/-- Whether an action writes to shared state. -/
def ThreadAct.isWrite : ThreadAct → Bool
  | ThreadAct.readAct _ => false
  | ThreadAct.writeAct _ _ => true

/-- Run one atomic action: its result value and the successor state. -/
def runAct : ThreadAct → ProcState → Nat × ProcState
  | ThreadAct.readAct g, s => (s.globals g, s)
  | ThreadAct.writeAct g v, s =>
      (v, { s with globals := fun g2 => if g2 = g then v else s.globals g2 })

/-- Interleave two threads of atomic actions under a schedule: `true`
schedules thread 1, `false` thread 2.  Scheduling a finished thread is a
no-op — an action is always enabled, so no thread ever blocks.  Returns
the values produced by each thread and the final shared state. -/
def interleaveTwo :
    List Bool → List ThreadAct → List ThreadAct → ProcState →
      List Nat × List Nat × ProcState
  | [], _, _, s => ([], [], s)
  | true :: rest, t1, t2, s =>
      match t1 with
      | [] => interleaveTwo rest [] t2 s
      | a :: as1 =>
          let r := runAct a s
          let out := interleaveTwo rest as1 t2 r.2
          (r.1 :: out.1, out.2.1, out.2.2)
  | false :: rest, t1, t2, s =>
      match t2 with
      | [] => interleaveTwo rest t1 [] s
      | a :: as2 =>
          let r := runAct a s
          let out := interleaveTwo rest t1 as2 r.2
          (out.1, r.1 :: out.2.1, out.2.2)

/-- The shared-memory footprint of one call of `get_current_task_port`:
the single atomic read its body performs (its effect trace under
`evalStmt` is the read list `[mach_task_self_]` and the empty write
list, cf. `get_current_task_port_eval`). -/
def taskPortCallActions : List ThreadAct :=
  [ThreadAct.readAct GlobalVar.mach_task_self_]

theorem taskPortCallActions_matches_body (s : ProcState) :
    ∃ o, get_current_task_port s = some o ∧
      o.reads.map ThreadAct.readAct = taskPortCallActions ∧ o.writes = [] :=
  ⟨_, get_current_task_port_eval s, rfl, rfl⟩

theorem interleaveTwo_nil_nil (sched : List Bool) (s : ProcState) :
    interleaveTwo sched [] [] s = ([], [], s) := by
  induction sched with
  | nil => rfl
  | cons b rest ih => cases b <;> simp [interleaveTwo, ih]

theorem interleaveTwo_left_only (sched : List Bool) (g : GlobalVar)
    (s : ProcState) (h : 1 ≤ sched.count true) :
    interleaveTwo sched [ThreadAct.readAct g] [] s =
      ([s.globals g], [], s) := by
  induction sched with
  | nil => simp at h
  | cons b rest ih =>
      cases b with
      | true => simp [interleaveTwo, runAct, interleaveTwo_nil_nil]
      | false =>
          have h2 : 1 ≤ rest.count true := by simpa using h
          simp [interleaveTwo, ih h2]

theorem interleaveTwo_right_only (sched : List Bool) (g : GlobalVar)
    (s : ProcState) (h : 1 ≤ sched.count false) :
    interleaveTwo sched [] [ThreadAct.readAct g] s =
      ([], [s.globals g], s) := by
  induction sched with
  | nil => simp at h
  | cons b rest ih =>
      cases b with
      | false => simp [interleaveTwo, runAct, interleaveTwo_nil_nil]
      | true =>
          have h2 : 1 ≤ rest.count false := by simpa using h
          simp [interleaveTwo, ih h2]

theorem interleaveTwo_two_reads (sched : List Bool) (g : GlobalVar)
    (s : ProcState) (h1 : 1 ≤ sched.count true)
    (h2 : 1 ≤ sched.count false) :
    interleaveTwo sched [ThreadAct.readAct g] [ThreadAct.readAct g] s =
      ([s.globals g], [s.globals g], s) := by
  induction sched with
  | nil => simp at h1
  | cons b rest ih =>
      cases b with
      | true =>
          have h2b : 1 ≤ rest.count false := by simpa using h2
          simp [interleaveTwo, runAct, interleaveTwo_right_only rest g s h2b]
      | false =>
          have h1b : 1 ≤ rest.count true := by simpa using h1
          simp [interleaveTwo, runAct, interleaveTwo_left_only rest g s h1b]

/-- A second sample state with the same ambient task handle as
`mkState 259` but different unrelated globals and allocation count; used to
instantiate the determinism theorem on two distinct states. -/
def mkStateB : ProcState where
  globals := fun g =>
    match g with
    | GlobalVar.mach_task_self_ => 259
    | GlobalVar.other i => i + 100
  allocCount := 5

/-- C1: within one process, every call of the accessor returns the same
task handle value as every other call; in particular the first call (at
startup) and the last call (just before exit) of any sequence of calls
agree. -/
theorem c1_same_value_within_process (s : ProcState) (n : Nat)
    (v w : Option Nat) (hv : v ∈ callResults n s)
    (hw : w ∈ callResults n s) : v = w := by
  rw [callResults_eq] at hv hw
  rw [List.eq_of_mem_replicate hv, List.eq_of_mem_replicate hw]

theorem c1_same_value_within_process_witness :
    ((some 259 : Option Nat) ∈ callResults 2 (mkState 259)) ∧
      ((some 259 : Option Nat) ∈ callResults 2 (mkState 259)) ∧
      (some 259 : Option Nat) = some 259 :=
  ⟨by decide, by decide,
    c1_same_value_within_process (mkState 259) 2 (some 259) (some 259)
      (by decide) (by decide)⟩

/-- C2: on every process state the accessor performs exactly one direct
read — of the ambient `mach_task_self_` value — and returns that value
unchanged, with no caching (the state is untouched) and no other
computation. -/
theorem c2_single_read_returned_unchanged (s : ProcState) :
    ∃ o, get_current_task_port s = some o ∧
      o.reads = [GlobalVar.mach_task_self_] ∧ o.reads.length = 1 ∧
      o.ret = some (s.globals GlobalVar.mach_task_self_) ∧ o.state = s :=
  ⟨_, get_current_task_port_eval s, rfl, rfl, rfl, rfl⟩

/-- C3: calling the accessor leaves all program and process state
unchanged: the post-call state equals the pre-call state, no global is
written, and no allocation is performed. -/
theorem c3_no_side_effects (s : ProcState) :
    ∃ o, get_current_task_port s = some o ∧ o.state = s ∧
      o.writes = [] ∧ o.allocs = 0 ∧ o.state.allocCount = s.allocCount :=
  ⟨_, get_current_task_port_eval s, rfl, rfl, rfl, rfl⟩

/-- C4: the accessor surfaces no runtime error: on every process state the
call succeeds (its evaluation never traps) and yields a returned value;
there is no failure branch. -/
theorem c4_no_runtime_failure (s : ProcState) :
    ∃ o, get_current_task_port s = some o ∧ ∃ v, o.ret = some v :=
  ⟨_, get_current_task_port_eval s, _, rfl⟩

/-- C5, counterexample: the public surface does NOT consist of a function
named `get_current_task_handle`; the single declared function bears a
different name (`get_current_task_port`). -/
theorem c5_surface_name_counterexample :
    ¬ (declaredFunctions.length = 1 ∧
        ∀ f ∈ declaredFunctions,
          f.name = CName.get_current_task_handle) := by
  decide

/-- C5, amended: the public function surface consists of exactly one
function, named `get_current_task_port`, which takes zero parameters and
returns a single opaque handle value sized to the platform's native
handle width. -/
theorem c5_function_surface_amended :
    declaredFunctions.length = 1 ∧
      ∀ f ∈ declaredFunctions,
        f.name = CName.get_current_task_port ∧ f.params = 0 ∧
          f.retWidth = machPortWidth := by
  decide

/-- C6: whenever the ambient task handle maintained by the operating
system is valid in the operating system's sense — which the host OS
guarantees for a running process — the value the accessor returns is
non-zero and well-formed in that same sense. -/
theorem c6_valid_handle_returned (s : ProcState)
    (h : OSValidTaskHandle (s.globals GlobalVar.mach_task_self_)) :
    ∃ o, get_current_task_port s = some o ∧
      ∃ v, o.ret = some v ∧ v ≠ 0 ∧ OSValidTaskHandle v :=
  ⟨_, get_current_task_port_eval s, _, rfl, h.1, h⟩

theorem c6_valid_handle_returned_witness :
    OSValidTaskHandle ((mkState 259).globals GlobalVar.mach_task_self_) ∧
      ∃ o, get_current_task_port (mkState 259) = some o ∧
        ∃ v, o.ret = some v ∧ v ≠ 0 ∧ OSValidTaskHandle v :=
  ⟨by decide, c6_valid_handle_returned (mkState 259) (by decide)⟩

/-- C7: the value returned by the wrapper equals the value obtained by
reading the underlying compiler-level construct `mach_task_self_`
directly; the wrapper introduces no semantic difference. -/
theorem c7_wrapper_equals_direct_read (s : ProcState) :
    ∃ o, get_current_task_port s = some o ∧
      o.ret = some (direct_mach_task_self_read s) :=
  ⟨_, get_current_task_port_eval s, rfl⟩

/-- C8: the accessor is deterministic: two runs whose ambient
`mach_task_self_` values agree produce the same returned value and the
same read trace, whatever the rest of the two process states holds. -/
theorem c8_deterministic_in_ambient_value (s1 s2 : ProcState)
    (h : s1.globals GlobalVar.mach_task_self_ =
      s2.globals GlobalVar.mach_task_self_) :
    ∃ o1 o2, get_current_task_port s1 = some o1 ∧
      get_current_task_port s2 = some o2 ∧
      o1.ret = o2.ret ∧ o1.reads = o2.reads :=
  ⟨_, _, get_current_task_port_eval s1, get_current_task_port_eval s2,
    congrArg some h, rfl⟩

theorem c8_deterministic_in_ambient_value_witness :
    (mkState 259).globals GlobalVar.mach_task_self_ =
        mkStateB.globals GlobalVar.mach_task_self_ ∧
      ∃ o1 o2, get_current_task_port (mkState 259) = some o1 ∧
        get_current_task_port mkStateB = some o2 ∧
        o1.ret = o2.ret ∧ o1.reads = o2.reads :=
  ⟨rfl, c8_deterministic_in_ambient_value (mkState 259) mkStateB rfl⟩

/-- C9: two threads concurrently calling the accessor need no
coordination: under every schedule that lets each thread run, both threads
return the identical ambient value, the shared state is unperturbed (no
corruption), no thread ever blocks (every scheduled step executes), and
the call performs no write to shared state, so no data race exists. -/
theorem c9_concurrent_calls_safe (s : ProcState) (sched : List Bool)
    (h1 : 1 ≤ sched.count true) (h2 : 1 ≤ sched.count false) :
    interleaveTwo sched taskPortCallActions taskPortCallActions s =
        ([s.globals GlobalVar.mach_task_self_],
          [s.globals GlobalVar.mach_task_self_], s) ∧
      ∀ a ∈ taskPortCallActions, a.isWrite = false :=
  ⟨interleaveTwo_two_reads sched GlobalVar.mach_task_self_ s h1 h2,
    by decide⟩

theorem c9_concurrent_calls_safe_witness :
    1 ≤ ([true, false].count true) ∧ 1 ≤ ([true, false].count false) ∧
      (interleaveTwo [true, false] taskPortCallActions taskPortCallActions
          (mkState 259) = ([259], [259], mkState 259) ∧
        ∀ a ∈ taskPortCallActions, a.isWrite = false) :=
  ⟨by decide, by decide,
    c9_concurrent_calls_safe (mkState 259) [true, false]
      (by decide) (by decide)⟩

/-- C10: the accessor validates nothing: whatever value `v` the ambient
`mach_task_self_` holds — including the degenerate `MACH_PORT_NULL` (0)
or `MACH_PORT_DEAD` — the call returns exactly `v`, with no
well-formedness check, adjustment or error at the public interface. -/
theorem c10_pass_through_no_validation (s : ProcState) (v : Nat)
    (h : s.globals GlobalVar.mach_task_self_ = v) :
    ∃ o, get_current_task_port s = some o ∧ o.ret = some v :=
  ⟨_, get_current_task_port_eval s, congrArg some h⟩

theorem c10_pass_through_no_validation_witness :
    (mkState MACH_PORT_NULL).globals GlobalVar.mach_task_self_ =
        MACH_PORT_NULL ∧
      ∃ o, get_current_task_port (mkState MACH_PORT_NULL) = some o ∧
        o.ret = some MACH_PORT_NULL :=
  ⟨rfl, c10_pass_through_no_validation (mkState MACH_PORT_NULL)
    MACH_PORT_NULL rfl⟩
